import Mathlib

/-!
Shallow embedding of the Ollama OpenAI-compatible proxy, src/backend/main.py.

The embedding covers the translation engine the specification describes:
the prompt builder, the request translators for both request kinds, the
streaming translators of both generator functions, the non-streaming
response assemblers with usage accounting, and the error handling of the
HTTP handlers.

Modelling conventions:
- Python floats carried opaquely by the translator are represented as
  rationals; the code copies them without arithmetic.
- A JSON payload is a list of key/value pairs with values in an inductive
  JVal type, mirroring the dict literals in the source.
- One upstream line is classified by the outcome of json.loads on it:
  blank (falsy, skipped by the if line check), invalid (raises
  JSONDecodeError, swallowed by the except clause), nonObject (json.loads
  succeeds with a non-object value, so data.get raises AttributeError
  carrying the given message), or event (a JSON object, with the fields
  the translator reads).
- SSE output items keep the model name, the delta text and the
  finish reason of each chunk; the randomly generated id, the timestamp
  and the object tag are abstracted away, as the specification directs
  for nondeterministic fields.
- The generator bodies are embedded as total recursive functions over the
  delivered line list plus how the upstream read ended: the chat generator
  wraps its loop in try/except and so appends one error chunk when an
  AttributeError or a read fault escapes the loop; the completions
  generator has no such handler, so nothing more is emitted there.
-/

namespace OllamaProxy

/-- Python str.endswith on character sequences: suffix test on the data. -/
def pyEndswith (s pat : String) : Bool :=
  pat.data.isSuffixOf s.data

/-- Message model from main.py lines 44-46. -/
structure Message where
  role : String
  content : String
deriving DecidableEq

/-- ChatCompletionRequest model from main.py lines 49-57, with the pydantic defaults. -/
structure ChatCompletionRequest where
  model : String
  messages : List Message
  stream : Bool := false
  temperature : ℚ := 7/10
  max_tokens : Int := 1000
  top_p : ℚ := 1
  frequency_penalty : ℚ := 0
  presence_penalty : ℚ := 0
deriving DecidableEq

/-- CompletionRequest model from main.py lines 60-65, with the pydantic defaults. -/
structure CompletionRequest where
  model : String
  prompt : String
  stream : Bool := false
  temperature : ℚ := 7/10
  max_tokens : Int := 1000
deriving DecidableEq

/-- convert_messages_to_ollama_prompt, main.py lines 70-86. -/
def convert_messages_to_ollama_prompt (messages : List Message) : String :=
  let prompt := messages.foldl (fun acc m =>
    if m.role = "system" then acc ++ "System: " ++ m.content ++ "\n\n"
    else if m.role = "user" then acc ++ "Human: " ++ m.content ++ "\n\n"
    else if m.role = "assistant" then acc ++ "Assistant: " ++ m.content ++ "\n\n"
    else acc) ""
  if !(pyEndswith prompt "Assistant:") then prompt ++ "Assistant:" else prompt

/-- JSON value model for the upstream payload dict literals. -/
inductive JVal where
  | str (s : String)
  | num (q : ℚ)
  | bool (b : Bool)
  | obj (fields : List (String × JVal))

/-- Lookup of a key in a JSON object field list. -/
def jlookup (fields : List (String × JVal)) (k : String) : Option JVal :=
  match fields with
  | [] => none
  | (k2, v) :: rest => if k2 = k then some v else jlookup rest k

mutual
/-- Whether a key occurs anywhere in a JSON value, at any nesting depth. -/
def jvalHasKey (k : String) : JVal → Bool
  | .obj fs => jfieldsHaveKey k fs
  | _ => false

/-- Whether a key occurs anywhere in a JSON object field list. -/
def jfieldsHaveKey (k : String) : List (String × JVal) → Bool
  | [] => false
  | (k2, v) :: rest => (k2 == k) || jvalHasKey k v || jfieldsHaveKey k rest
end

/-- The ollama_payload dict built by chat_completions, main.py lines 175-184. -/
def chat_ollama_payload (r : ChatCompletionRequest) : List (String × JVal) :=
  [("model", .str r.model),
   ("prompt", .str (convert_messages_to_ollama_prompt r.messages)),
   ("stream", .bool r.stream),
   ("options", .obj
     [("temperature", .num r.temperature),
      ("num_predict", .num (r.max_tokens : ℚ)),
      ("top_p", .num r.top_p)])]

/-- The ollama_payload dict built by completions, main.py lines 275-283. -/
def completions_ollama_payload (r : CompletionRequest) : List (String × JVal) :=
  [("model", .str r.model),
   ("prompt", .str r.prompt),
   ("stream", .bool r.stream),
   ("options", .obj
     [("temperature", .num r.temperature),
      ("num_predict", .num (r.max_tokens : ℚ))])]

/-- UpstreamEvent: the fields of one upstream JSON object line that the
translator reads. Absent done is falsy like an explicit false, per the
truthiness test data.get in the source. -/
structure UpstreamEvent where
  response : Option String := none
  done : Bool := false
  prompt_eval_count : Option Nat := none
  eval_count : Option Nat := none
deriving DecidableEq

/-- Truthiness of data.get applied to the response field: present and nonempty. -/
def truthyResponse (e : UpstreamEvent) : Bool :=
  match e.response with
  | some s => s != ""
  | none => false

/-- One raw upstream line, classified by the outcome of json.loads on it. -/
inductive Line where
  | blank
  | invalid (raw : String)
  | nonObject (errMsg : String)
  | event (e : UpstreamEvent)
deriving DecidableEq

/-- How the upstream line iteration ends once the delivered lines run out:
normal end of stream, or a read fault raised with the given message. -/
inductive StreamEnd where
  | eof
  | fault (msg : String)
deriving DecidableEq

/-- Outcome of opening the upstream streaming call: a connection-level
fault before any response, or a response with a status, an error body,
the delivered lines, and how the line iteration ends. -/
inductive UpstreamOutcome where
  | connectFault (msg : String)
  | response (status : Nat) (body : String) (lines : List Line) (ending : StreamEnd)
deriving DecidableEq

/-- One item of the client-visible SSE output: a chunk with the echoed
model name, the delta text and the finish reason, or the literal
terminator line carrying the DONE sentinel. -/
inductive SSEItem where
  | chunk (model : String) (text : String) (finish : Option String)
  | doneSentinel
deriving DecidableEq

/-- Whether an SSE item is a plain content chunk: a chunk with null finish reason. -/
def isContentChunk : SSEItem → Bool
  | .chunk _ _ f => f == none
  | .doneSentinel => false

/-- Whether an SSE item is a terminal signal: the DONE sentinel or any
chunk with a non-null finish reason. -/
def isTerminalSignal : SSEItem → Bool
  | .chunk _ _ f => f != none
  | .doneSentinel => true

/-- Whether an SSE item is a chunk with finish reason stop. -/
def isStopChunk : SSEItem → Bool
  | .chunk _ _ f => f == some "stop"
  | .doneSentinel => false

/-- Whether an SSE item is a chunk with finish reason error. -/
def isErrorChunk : SSEItem → Bool
  | .chunk _ _ f => f == some "error"
  | .doneSentinel => false

/-- The line loop of chat_completions.generate_stream, main.py lines
205-226, fused with its enclosing try/except: a blank line is skipped, a
JSONDecodeError line is skipped by the except clause, a non-object line
raises AttributeError which escapes to the outer except and yields one
error chunk, an event line yields a content chunk when its response field
is truthy and then, when its done field is truthy, the stop chunk and the
DONE sentinel with an immediate return; when the lines run out, a read
fault reaching the outer except yields one error chunk. -/
def chatStreamFrom (model : String) : List Line → StreamEnd → List SSEItem
  | [], .eof => []
  | [], .fault msg => [.chunk model ("Error: " ++ msg) (some "error")]
  | .blank :: rest, ending => chatStreamFrom model rest ending
  | .invalid _ :: rest, ending => chatStreamFrom model rest ending
  | .nonObject msg :: _, _ => [.chunk model ("Error: " ++ msg) (some "error")]
  | .event e :: rest, ending =>
    (if truthyResponse e then [SSEItem.chunk model (e.response.getD "") none] else [])
      ++ (if e.done then [SSEItem.chunk model "" (some "stop"), SSEItem.doneSentinel]
          else chatStreamFrom model rest ending)

/-- chat_completions.generate_stream, main.py lines 188-226: a connect
fault is caught by the except clause and yields one error chunk; a
non-200 status yields one error chunk carrying the decoded body; else
the line loop runs. -/
def chatGenerateStream (model : String) (u : UpstreamOutcome) : List SSEItem :=
  match u with
  | .connectFault msg => [.chunk model ("Error: " ++ msg) (some "error")]
  | .response status body lines ending =>
    if status ≠ 200 then [.chunk model ("Error: " ++ body) (some "error")]
    else chatStreamFrom model lines ending

/-- The line loop of completions.generate_stream, main.py lines 294-315:
like the chat loop but the done branch yields only the DONE sentinel with
no stop chunk, and there is no enclosing try/except, so an AttributeError
or a read fault ends the output with nothing more emitted. -/
def completionsStreamFrom (model : String) : List Line → StreamEnd → List SSEItem
  | [], _ => []
  | .blank :: rest, ending => completionsStreamFrom model rest ending
  | .invalid _ :: rest, ending => completionsStreamFrom model rest ending
  | .nonObject _ :: _, _ => []
  | .event e :: rest, ending =>
    (if truthyResponse e then [SSEItem.chunk model (e.response.getD "") none] else [])
      ++ (if e.done then [SSEItem.doneSentinel]
          else completionsStreamFrom model rest ending)

/-- completions.generate_stream, main.py lines 287-315: no status check
and no except clause; a connect fault escapes before anything is
emitted, otherwise the line loop runs on the delivered lines whatever
the status was. -/
def completionsGenerateStream (model : String) (u : UpstreamOutcome) : List SSEItem :=
  match u with
  | .connectFault _ => []
  | .response _ _ lines ending => completionsStreamFrom model lines ending

/-- OllamaResponse: the fields of the single upstream JSON object read by
the non-streaming paths. -/
structure OllamaResponse where
  response : Option String := none
  prompt_eval_count : Option Nat := none
  eval_count : Option Nat := none
deriving DecidableEq

/-- Usage statistics of a non-streaming response. -/
structure Usage where
  prompt_tokens : Nat
  completion_tokens : Nat
  total_tokens : Nat
deriving DecidableEq

/-- The usage dict built by chat_completions, main.py lines 252-257. -/
def chat_usage (r : OllamaResponse) : Usage :=
  { prompt_tokens := r.prompt_eval_count.getD 0
    completion_tokens := r.eval_count.getD 0
    total_tokens := r.prompt_eval_count.getD 0 + r.eval_count.getD 0 }

/-- The usage dict built by completions, main.py lines 345-350, identical
in form to the chat one. -/
def completions_usage (r : OllamaResponse) : Usage :=
  { prompt_tokens := r.prompt_eval_count.getD 0
    completion_tokens := r.eval_count.getD 0
    total_tokens := r.prompt_eval_count.getD 0 + r.eval_count.getD 0 }

/-- The translation-relevant part of create_chat_completion_response,
main.py lines 89-110: echoed model, message content, finish reason, usage. -/
structure ChatCompletionResponseBody where
  model : String
  content : String
  finish_reason : String
  usage : Usage
deriving DecidableEq

/-- The translation-relevant part of the non-streaming completions reply,
main.py lines 335-351: echoed model, text, finish reason, usage. -/
structure CompletionResponseBody where
  model : String
  text : String
  finish_reason : String
  usage : Usage
deriving DecidableEq

/-- An HTTPException raised to the framework: status code and detail string. -/
structure HTTPError where
  status : Nat
  detail : String
deriving DecidableEq

/-- The exceptions that can escape the inner body of a non-streaming
handler: an HTTPException, or an httpx request error with its message. -/
inductive PyExc where
  | httpExc (e : HTTPError)
  | requestError (msg : String)
deriving DecidableEq

/-- Python str applied to such an exception: starlette renders an
HTTPException as status colon detail, and a request error as its message. -/
def pyStr : PyExc → String
  | .httpExc e => toString e.status ++ ": " ++ e.detail
  | .requestError msg => msg

/-- Outcome of the upstream call in a non-streaming handler. -/
inductive NonStreamOutcome where
  | connectFault (msg : String)
  | response (status : Nat) (body : OllamaResponse)
deriving DecidableEq

/-- The body of the try block of non-streaming chat_completions, main.py
lines 239-263: a connect fault raises a request error, a non-200 status
raises HTTPException with that status and a generic detail, else the
OpenAI-shaped response is assembled. -/
def chat_nonstream_inner (req : ChatCompletionRequest) (u : NonStreamOutcome) :
    Except PyExc ChatCompletionResponseBody :=
  match u with
  | .connectFault msg => .error (.requestError msg)
  | .response st body =>
    if st ≠ 200 then .error (.httpExc { status := st, detail := "Failed to generate response" })
    else .ok { model := req.model, content := body.response.getD ""
               finish_reason := "stop", usage := chat_usage body }

/-- Non-streaming chat_completions with its outermost except clause,
main.py lines 168-267: any exception escaping the try block is re-raised
as HTTPException with status 500 and detail str of the exception. -/
def chat_completions_nonstream (req : ChatCompletionRequest) (u : NonStreamOutcome) :
    Except HTTPError ChatCompletionResponseBody :=
  match chat_nonstream_inner req u with
  | .ok r => .ok r
  | .error e => .error { status := 500, detail := pyStr e }

/-- The body of the try block of non-streaming completions, main.py lines
323-351. -/
def completions_nonstream_inner (req : CompletionRequest) (u : NonStreamOutcome) :
    Except PyExc CompletionResponseBody :=
  match u with
  | .connectFault msg => .error (.requestError msg)
  | .response st body =>
    if st ≠ 200 then .error (.httpExc { status := st, detail := "Failed to generate response" })
    else .ok { model := req.model, text := body.response.getD ""
               finish_reason := "stop", usage := completions_usage body }

/-- Non-streaming completions with its outermost except clause, main.py
lines 272-355. -/
def completions_nonstream (req : CompletionRequest) (u : NonStreamOutcome) :
    Except HTTPError CompletionResponseBody :=
  match completions_nonstream_inner req u with
  | .ok r => .ok r
  | .error e => .error { status := 500, detail := pyStr e }

/-- One entry of the model list returned by list_models. -/
structure ModelEntry where
  id : String
  owned_by : String
deriving DecidableEq

/-- Outcome of the upstream tags call made by list_models. -/
inductive ModelsOutcome where
  | connectFault (msg : String)
  | response (status : Nat) (names : List String)
deriving DecidableEq

/-- list_models, main.py lines 131-163: a request error is caught and
re-raised as 503 with a descriptive detail; an HTTPException raised for
a non-200 status is not a request error, so it propagates with the
upstream status; otherwise the names are reformatted. -/
def list_models (u : ModelsOutcome) : Except HTTPError (List ModelEntry) :=
  match u with
  | .connectFault msg =>
    .error { status := 503, detail := "Ollama service unavailable: " ++ msg }
  | .response st names =>
    if st ≠ 200 then .error { status := st, detail := "Failed to fetch models from Ollama" }
    else .ok (names.map fun n => { id := n, owned_by := "ollama" })

/-- A line that does not abort the stream loop: anything but a JSON
non-object line. -/
def goodLine : Line → Bool
  | .nonObject _ => false
  | _ => true

/-- Whether a line is a well-formed event line. -/
def isEventLine : Line → Bool
  | .event _ => true
  | _ => false

/-- Terminal emission of the chat line loop, by cases on the first
deciding line: the first non-object line gives an error chunk, the first
done event gives the stop chunk plus the DONE sentinel, and when neither
occurs the ending decides between nothing and a fault error chunk. -/
def chatLinesTerm (model : String) : List Line → StreamEnd → List SSEItem
  | [], .eof => []
  | [], .fault msg => [.chunk model ("Error: " ++ msg) (some "error")]
  | .blank :: rest, ending => chatLinesTerm model rest ending
  | .invalid _ :: rest, ending => chatLinesTerm model rest ending
  | .nonObject msg :: _, _ => [.chunk model ("Error: " ++ msg) (some "error")]
  | .event e :: rest, ending =>
    if e.done then [.chunk model "" (some "stop"), .doneSentinel]
    else chatLinesTerm model rest ending

/-- Terminal emission of the whole chat streaming path. -/
def chatTerminator (model : String) (u : UpstreamOutcome) : List SSEItem :=
  match u with
  | .connectFault msg => [.chunk model ("Error: " ++ msg) (some "error")]
  | .response status body lines ending =>
    if status ≠ 200 then [.chunk model ("Error: " ++ body) (some "error")]
    else chatLinesTerm model lines ending

/-- Terminal emission of the completions line loop: only a done event
produces one, the DONE sentinel; aborts and faults emit nothing. -/
def completionsLinesTerm : List Line → List SSEItem
  | [] => []
  | .blank :: rest => completionsLinesTerm rest
  | .invalid _ :: rest => completionsLinesTerm rest
  | .nonObject _ :: _ => []
  | .event e :: rest =>
    if e.done then [.doneSentinel] else completionsLinesTerm rest

/-- Terminal emission of the whole completions streaming path. -/
def completionsTerminator (u : UpstreamOutcome) : List SSEItem :=
  match u with
  | .connectFault _ => []
  | .response _ _ lines _ => completionsLinesTerm lines

/-- Spec-side piece mapping of the prompt builder: the string a message
of each recognized role contributes, none for any other role. -/
def rolePiece (m : Message) : Option String :=
  if m.role = "system" then some ("System: " ++ m.content ++ "\n\n")
  else if m.role = "user" then some ("Human: " ++ m.content ++ "\n\n")
  else if m.role = "assistant" then some ("Assistant: " ++ m.content ++ "\n\n")
  else none

/-- The pieces contributed by a message list, in order. -/
def promptPieces (msgs : List Message) : List String :=
  msgs.filterMap rolePiece

/-- Concatenation of a list of strings. -/
def concatPieces : List String → String
  | [] => ""
  | p :: rest => p ++ concatPieces rest

/-! Helper lemmas about strings and the prompt builder. -/

theorem str_append_assoc (a b c : String) : a ++ b ++ c = a ++ (b ++ c) :=
  String.ext (by simp [String.data_append])

theorem str_empty_append (s : String) : "" ++ s = s :=
  String.ext (by rw [String.data_append]; rfl)

theorem rolePiece_ends (m : Message) (p : String) (h : rolePiece m = some p) :
    ∃ q : String, p = q ++ "\n\n" := by
  unfold rolePiece at h
  split_ifs at h
  · exact ⟨"System: " ++ m.content, (Option.some.inj h).symm⟩
  · exact ⟨"Human: " ++ m.content, (Option.some.inj h).symm⟩
  · exact ⟨"Assistant: " ++ m.content, (Option.some.inj h).symm⟩

theorem concat_pieces_last (ps : List String)
    (h : ∀ p ∈ ps, ∃ q : String, p = q ++ "\n\n") :
    (concatPieces ps).data = [] ∨ (concatPieces ps).data.getLast? = some '\n' := by
  induction ps with
  | nil => exact Or.inl rfl
  | cons p rest ih =>
    right
    obtain ⟨q, hq⟩ := h p (List.mem_cons_self p rest)
    have hrest := ih (fun x hx => h x (List.mem_cons_of_mem p hx))
    have hdata : (concatPieces (p :: rest)).data = p.data ++ (concatPieces rest).data := by
      simp [concatPieces, String.data_append]
    rw [hdata, List.getLast?_append]
    rcases hrest with h0 | h1
    · rw [h0]
      subst hq
      simp [String.data_append, List.getLast?_append]
    · rw [h1]
      rfl

theorem pyEndswith_assistant_false (s : String)
    (h : s.data = [] ∨ s.data.getLast? = some '\n') :
    pyEndswith s "Assistant:" = false := by
  unfold pyEndswith
  by_contra hc
  rw [Bool.not_eq_false] at hc
  have hsuf : "Assistant:".data <:+ s.data := by simpa using hc
  obtain ⟨t, ht⟩ := hsuf
  rcases h with h0 | h1
  · rw [h0] at ht
    have hnil : ("Assistant:".data : List Char) = [] := (List.append_eq_nil.mp ht).2
    exact absurd hnil (by decide)
  · rw [← ht, List.getLast?_append] at h1
    have hlast : ("Assistant:".data).getLast? = some ':' := by decide
    rw [hlast] at h1
    exact absurd (Option.some.inj h1) (by decide)

theorem pyEndswith_append (s t : String) : pyEndswith (s ++ t) t = true := by
  unfold pyEndswith
  simp [String.data_append]

theorem prompt_foldl (msgs : List Message) (acc : String) :
    msgs.foldl (fun acc m =>
      if m.role = "system" then acc ++ "System: " ++ m.content ++ "\n\n"
      else if m.role = "user" then acc ++ "Human: " ++ m.content ++ "\n\n"
      else if m.role = "assistant" then acc ++ "Assistant: " ++ m.content ++ "\n\n"
      else acc) acc
    = acc ++ concatPieces (promptPieces msgs) := by
  induction msgs generalizing acc with
  | nil => simp [promptPieces, concatPieces]
  | cons m rest ih =>
    rw [List.foldl_cons]
    simp only [promptPieces, List.filterMap_cons, rolePiece]
    split_ifs with h1 h2 h3
    · rw [ih]
      apply String.ext
      simp [concatPieces, promptPieces, String.data_append]
    · rw [ih]
      apply String.ext
      simp [concatPieces, promptPieces, String.data_append]
    · rw [ih]
      apply String.ext
      simp [concatPieces, promptPieces, String.data_append]
    · exact ih acc

/-- C7: the prompt builder is a pure function mapping system, user and
assistant messages to their role pieces in order, dropping every other
role; its output is the concatenation of the pieces followed by the
literal suffix Assistant:, hence always ends with that suffix; on the
empty list it yields exactly Assistant:, and on the documented
two-message scenario it yields the documented string. -/
theorem prompt_builder_correct (msgs : List Message) :
    convert_messages_to_ollama_prompt msgs
        = concatPieces (promptPieces msgs) ++ "Assistant:"
  ∧ pyEndswith (convert_messages_to_ollama_prompt msgs) "Assistant:" = true
  ∧ convert_messages_to_ollama_prompt [] = "Assistant:"
  ∧ convert_messages_to_ollama_prompt
        [{ role := "system", content := "Be terse" }, { role := "user", content := "Hi" }]
        = "System: Be terse\n\nHuman: Hi\n\nAssistant:" := by
  have hpieces : ∀ p ∈ promptPieces msgs, ∃ q : String, p = q ++ "\n\n" := by
    intro p hp
    obtain ⟨m, _, hm⟩ := List.mem_filterMap.mp hp
    exact rolePiece_ends m p hm
  have hmain : convert_messages_to_ollama_prompt msgs
      = concatPieces (promptPieces msgs) ++ "Assistant:" := by
    unfold convert_messages_to_ollama_prompt
    rw [prompt_foldl msgs "", str_empty_append]
    show (if (!pyEndswith (concatPieces (promptPieces msgs)) "Assistant:") = true
        then concatPieces (promptPieces msgs) ++ "Assistant:"
        else concatPieces (promptPieces msgs))
      = concatPieces (promptPieces msgs) ++ "Assistant:"
    rw [pyEndswith_assistant_false _ (concat_pieces_last _ hpieces)]
    simp
  refine ⟨hmain, ?_, by decide, by decide⟩
  rw [hmain]
  exact pyEndswith_append _ _

/-! Helper lemmas about the stream translators. -/

theorem isContentChunk_props {i : SSEItem} (h : isContentChunk i = true) :
    isTerminalSignal i = false ∧ isStopChunk i = false ∧ isErrorChunk i = false
      ∧ i ≠ SSEItem.doneSentinel := by
  cases i with
  | chunk m t f =>
    cases f with
    | none => exact ⟨rfl, rfl, rfl, by simp⟩
    | some s => simp [isContentChunk] at h
  | doneSentinel => simp [isContentChunk] at h

theorem head_content (model : String) (e : UpstreamEvent) :
    ∀ i ∈ (if truthyResponse e then [SSEItem.chunk model (e.response.getD "") none] else []),
      isContentChunk i = true := by
  cases ht : truthyResponse e <;> simp [ht, isContentChunk]

theorem chatStreamFrom_decomp (model : String) (lines : List Line) (ending : StreamEnd) :
    ∃ items, chatStreamFrom model lines ending = items ++ chatLinesTerm model lines ending
      ∧ ∀ i ∈ items, isContentChunk i = true := by
  induction lines with
  | nil =>
    refine ⟨[], ?_, by simp⟩
    cases ending <;> rfl
  | cons l rest ih =>
    cases l with
    | blank =>
      obtain ⟨items, h1, h2⟩ := ih
      exact ⟨items, by simpa [chatStreamFrom, chatLinesTerm] using h1, h2⟩
    | invalid raw =>
      obtain ⟨items, h1, h2⟩ := ih
      exact ⟨items, by simpa [chatStreamFrom, chatLinesTerm] using h1, h2⟩
    | nonObject msg => exact ⟨[], rfl, by simp⟩
    | event f =>
      cases hd : f.done with
      | true =>
        refine ⟨(if truthyResponse f then [SSEItem.chunk model (f.response.getD "") none]
          else []), ?_, head_content model f⟩
        simp [chatStreamFrom, chatLinesTerm, hd]
      | false =>
        obtain ⟨items, h1, h2⟩ := ih
        refine ⟨(if truthyResponse f then [SSEItem.chunk model (f.response.getD "") none]
          else []) ++ items, ?_, ?_⟩
        · simp [chatStreamFrom, chatLinesTerm, hd, h1, List.append_assoc]
        · intro i hi
          rcases List.mem_append.mp hi with hh | hh
          · exact head_content model f i hh
          · exact h2 i hh

theorem chatGenerateStream_decomp (model : String) (u : UpstreamOutcome) :
    ∃ items, chatGenerateStream model u = items ++ chatTerminator model u
      ∧ ∀ i ∈ items, isContentChunk i = true := by
  cases u with
  | connectFault msg => exact ⟨[], rfl, by simp⟩
  | response status body lines ending =>
    by_cases hs : status = 200
    · subst hs
      obtain ⟨items, h1, h2⟩ := chatStreamFrom_decomp model lines ending
      refine ⟨items, ?_, h2⟩
      simpa [chatGenerateStream, chatTerminator] using h1
    · exact ⟨[], by simp [chatGenerateStream, chatTerminator, hs], by simp⟩

theorem completionsStreamFrom_decomp (model : String) (lines : List Line) (ending : StreamEnd) :
    ∃ items, completionsStreamFrom model lines ending = items ++ completionsLinesTerm lines
      ∧ ∀ i ∈ items, isContentChunk i = true := by
  induction lines with
  | nil => exact ⟨[], rfl, by simp⟩
  | cons l rest ih =>
    cases l with
    | blank =>
      obtain ⟨items, h1, h2⟩ := ih
      exact ⟨items, by simpa [completionsStreamFrom, completionsLinesTerm] using h1, h2⟩
    | invalid raw =>
      obtain ⟨items, h1, h2⟩ := ih
      exact ⟨items, by simpa [completionsStreamFrom, completionsLinesTerm] using h1, h2⟩
    | nonObject msg => exact ⟨[], rfl, by simp⟩
    | event f =>
      cases hd : f.done with
      | true =>
        refine ⟨(if truthyResponse f then [SSEItem.chunk model (f.response.getD "") none]
          else []), ?_, head_content model f⟩
        simp [completionsStreamFrom, completionsLinesTerm, hd]
      | false =>
        obtain ⟨items, h1, h2⟩ := ih
        refine ⟨(if truthyResponse f then [SSEItem.chunk model (f.response.getD "") none]
          else []) ++ items, ?_, ?_⟩
        · simp [completionsStreamFrom, completionsLinesTerm, hd, h1, List.append_assoc]
        · intro i hi
          rcases List.mem_append.mp hi with hh | hh
          · exact head_content model f i hh
          · exact h2 i hh

theorem completionsGenerateStream_decomp (model : String) (u : UpstreamOutcome) :
    ∃ items, completionsGenerateStream model u = items ++ completionsTerminator u
      ∧ ∀ i ∈ items, isContentChunk i = true := by
  cases u with
  | connectFault msg => exact ⟨[], rfl, by simp⟩
  | response status body lines ending =>
    obtain ⟨items, h1, h2⟩ := completionsStreamFrom_decomp model lines ending
    exact ⟨items, by simpa [completionsGenerateStream, completionsTerminator] using h1, h2⟩

theorem chatStreamFrom_stops_at_done (model : String) (pre : List Line) (e : UpstreamEvent)
    (hdone : e.done = true) (hpre : ∀ l ∈ pre, goodLine l = true)
    (r1 r2 : List Line) (e1 e2 : StreamEnd) :
    chatStreamFrom model (pre ++ Line.event e :: r1) e1
      = chatStreamFrom model (pre ++ Line.event e :: r2) e2 := by
  induction pre with
  | nil => simp [chatStreamFrom, hdone]
  | cons l pre ih =>
    have hl := hpre l (List.mem_cons_self l pre)
    have hpre2 : ∀ x ∈ pre, goodLine x = true := fun x hx => hpre x (List.mem_cons_of_mem l hx)
    cases l with
    | blank => simpa [chatStreamFrom] using ih hpre2
    | invalid raw => simpa [chatStreamFrom] using ih hpre2
    | nonObject msg => simp [goodLine] at hl
    | event f =>
      cases hd : f.done with
      | true => simp [chatStreamFrom, hd]
      | false =>
        simp only [List.cons_append, chatStreamFrom, hd]
        simp [ih hpre2]

theorem completionsStreamFrom_stops_at_done (model : String) (pre : List Line)
    (e : UpstreamEvent) (hdone : e.done = true) (hpre : ∀ l ∈ pre, goodLine l = true)
    (r1 r2 : List Line) (e1 e2 : StreamEnd) :
    completionsStreamFrom model (pre ++ Line.event e :: r1) e1
      = completionsStreamFrom model (pre ++ Line.event e :: r2) e2 := by
  induction pre with
  | nil => simp [completionsStreamFrom, hdone]
  | cons l pre ih =>
    have hl := hpre l (List.mem_cons_self l pre)
    have hpre2 : ∀ x ∈ pre, goodLine x = true := fun x hx => hpre x (List.mem_cons_of_mem l hx)
    cases l with
    | blank => simpa [completionsStreamFrom] using ih hpre2
    | invalid raw => simpa [completionsStreamFrom] using ih hpre2
    | nonObject msg => simp [goodLine] at hl
    | event f =>
      cases hd : f.done with
      | true => simp [completionsStreamFrom, hd]
      | false =>
        simp only [List.cons_append, completionsStreamFrom, hd]
        simp [ih hpre2]

theorem chatLinesTerm_at_done (model : String) (pre : List Line) (e : UpstreamEvent)
    (hdone : e.done = true) (hpre : ∀ l ∈ pre, goodLine l = true)
    (rest : List Line) (ending : StreamEnd) :
    chatLinesTerm model (pre ++ Line.event e :: rest) ending
      = [SSEItem.chunk model "" (some "stop"), SSEItem.doneSentinel] := by
  induction pre with
  | nil => simp [chatLinesTerm, hdone]
  | cons l pre ih =>
    have hl := hpre l (List.mem_cons_self l pre)
    have hpre2 : ∀ x ∈ pre, goodLine x = true := fun x hx => hpre x (List.mem_cons_of_mem l hx)
    cases l with
    | blank => simpa [chatLinesTerm] using ih hpre2
    | invalid raw => simpa [chatLinesTerm] using ih hpre2
    | nonObject msg => simp [goodLine] at hl
    | event f =>
      cases hd : f.done with
      | true => simp [chatLinesTerm, hd]
      | false =>
        simp only [List.cons_append, chatLinesTerm, hd]
        simpa using ih hpre2

theorem completionsLinesTerm_at_done (pre : List Line) (e : UpstreamEvent)
    (hdone : e.done = true) (hpre : ∀ l ∈ pre, goodLine l = true) (rest : List Line) :
    completionsLinesTerm (pre ++ Line.event e :: rest) = [SSEItem.doneSentinel] := by
  induction pre with
  | nil => simp [completionsLinesTerm, hdone]
  | cons l pre ih =>
    have hl := hpre l (List.mem_cons_self l pre)
    have hpre2 : ∀ x ∈ pre, goodLine x = true := fun x hx => hpre x (List.mem_cons_of_mem l hx)
    cases l with
    | blank => simpa [completionsLinesTerm] using ih hpre2
    | invalid raw => simpa [completionsLinesTerm] using ih hpre2
    | nonObject msg => simp [goodLine] at hl
    | event f =>
      cases hd : f.done with
      | true => simp [completionsLinesTerm, hd]
      | false =>
        simp only [List.cons_append, completionsLinesTerm, hd]
        simpa using ih hpre2

theorem chatStreamFrom_filter_events (model : String) (lines : List Line) (ending : StreamEnd)
    (h : ∀ l ∈ lines, goodLine l = true) :
    chatStreamFrom model (lines.filter isEventLine) ending = chatStreamFrom model lines ending := by
  induction lines with
  | nil => rfl
  | cons l rest ih =>
    have hl := h l (List.mem_cons_self l rest)
    have h2 : ∀ x ∈ rest, goodLine x = true := fun x hx => h x (List.mem_cons_of_mem l hx)
    cases l with
    | blank => simpa [List.filter_cons, isEventLine, chatStreamFrom] using ih h2
    | invalid raw => simpa [List.filter_cons, isEventLine, chatStreamFrom] using ih h2
    | nonObject msg => simp [goodLine] at hl
    | event f =>
      cases hd : f.done with
      | true => simp [List.filter_cons, isEventLine, chatStreamFrom, hd]
      | false =>
        simp only [List.filter_cons, isEventLine, if_pos, chatStreamFrom, hd]
        simp [ih h2]

theorem completionsStreamFrom_filter_events (model : String) (lines : List Line)
    (ending : StreamEnd) (h : ∀ l ∈ lines, goodLine l = true) :
    completionsStreamFrom model (lines.filter isEventLine) ending
      = completionsStreamFrom model lines ending := by
  induction lines with
  | nil => rfl
  | cons l rest ih =>
    have hl := h l (List.mem_cons_self l rest)
    have h2 : ∀ x ∈ rest, goodLine x = true := fun x hx => h x (List.mem_cons_of_mem l hx)
    cases l with
    | blank => simpa [List.filter_cons, isEventLine, completionsStreamFrom] using ih h2
    | invalid raw => simpa [List.filter_cons, isEventLine, completionsStreamFrom] using ih h2
    | nonObject msg => simp [goodLine] at hl
    | event f =>
      cases hd : f.done with
      | true => simp [List.filter_cons, isEventLine, completionsStreamFrom, hd]
      | false =>
        simp only [List.filter_cons, isEventLine, if_pos, completionsStreamFrom, hd]
        simp [ih h2]

theorem chatLinesTerm_good_eof_no_error (model : String) (lines : List Line)
    (h : ∀ l ∈ lines, goodLine l = true) :
    ∀ i ∈ chatLinesTerm model lines StreamEnd.eof, isErrorChunk i = false := by
  induction lines with
  | nil => simp [chatLinesTerm]
  | cons l rest ih =>
    have hl := h l (List.mem_cons_self l rest)
    have h2 : ∀ x ∈ rest, goodLine x = true := fun x hx => h x (List.mem_cons_of_mem l hx)
    cases l with
    | blank => simpa [chatLinesTerm] using ih h2
    | invalid raw => simpa [chatLinesTerm] using ih h2
    | nonObject msg => simp [goodLine] at hl
    | event f =>
      cases hd : f.done with
      | true => simp [chatLinesTerm, hd, isErrorChunk]
      | false => simpa [chatLinesTerm, hd] using ih h2

theorem completionsLinesTerm_no_error (lines : List Line) :
    ∀ i ∈ completionsLinesTerm lines, isErrorChunk i = false := by
  induction lines with
  | nil => simp [completionsLinesTerm]
  | cons l rest ih =>
    cases l with
    | blank => simpa [completionsLinesTerm] using ih
    | invalid raw => simpa [completionsLinesTerm] using ih
    | nonObject msg => simp [completionsLinesTerm]
    | event f =>
      cases hd : f.done with
      | true => simp [completionsLinesTerm, hd, isErrorChunk]
      | false => simpa [completionsLinesTerm, hd] using ih

theorem chatLinesTerm_nodone_fault (model msg : String) (lines : List Line)
    (hgood : ∀ l ∈ lines, goodLine l = true)
    (hnodone : ∀ f, Line.event f ∈ lines → f.done = false) :
    chatLinesTerm model lines (StreamEnd.fault msg)
      = [SSEItem.chunk model ("Error: " ++ msg) (some "error")] := by
  induction lines with
  | nil => rfl
  | cons l rest ih =>
    have hl := hgood l (List.mem_cons_self l rest)
    have h2 : ∀ x ∈ rest, goodLine x = true := fun x hx => hgood x (List.mem_cons_of_mem l hx)
    have h3 : ∀ f, Line.event f ∈ rest → f.done = false :=
      fun f hf => hnodone f (List.mem_cons_of_mem l hf)
    cases l with
    | blank => simpa [chatLinesTerm] using ih h2 h3
    | invalid raw => simpa [chatLinesTerm] using ih h2 h3
    | nonObject m2 => simp [goodLine] at hl
    | event f =>
      have hd : f.done = false := hnodone f (List.mem_cons_self _ _)
      simpa [chatLinesTerm, hd] using ih h2 h3

/-! Claims about the stream translators. -/

/-- C1 counterexample: on the plain completions streaming path a done
event yields only the DONE sentinel, with no chunk carrying finish
reason stop anywhere in the output, refuting the claim for that path. -/
theorem completions_done_without_stop_chunk :
    completionsGenerateStream "m"
        (.response 200 "" [Line.event { done := true }] .eof)
      = [SSEItem.doneSentinel]
  ∧ (completionsGenerateStream "m"
        (.response 200 "" [Line.event { done := true }] .eof)).countP
      isStopChunk = 0 := by
  exact ⟨rfl, rfl⟩

/-- C1 (amended): for any upstream line sequence of parseable lines
ending in a done event, the chat path output ends with exactly one stop
chunk directly followed by exactly one DONE sentinel and nothing after
them, while the completions path output ends with exactly one DONE
sentinel and carries no stop chunk; on both paths the lines after the
done event and the way the read would have ended are never consulted. -/
theorem stream_done_terminates_protocol (model body : String) (pre r1 r2 : List Line)
    (e : UpstreamEvent) (e1 e2 : StreamEnd)
    (hpre : ∀ l ∈ pre, goodLine l = true) (hdone : e.done = true) :
    (∃ items, chatGenerateStream model (.response 200 body (pre ++ Line.event e :: r1) e1)
        = items ++ [SSEItem.chunk model "" (some "stop"), SSEItem.doneSentinel]
      ∧ ∀ i ∈ items, isStopChunk i = false ∧ i ≠ SSEItem.doneSentinel)
  ∧ chatGenerateStream model (.response 200 body (pre ++ Line.event e :: r1) e1)
      = chatGenerateStream model (.response 200 body (pre ++ Line.event e :: r2) e2)
  ∧ (∃ items, completionsGenerateStream model
        (.response 200 body (pre ++ Line.event e :: r1) e1)
        = items ++ [SSEItem.doneSentinel]
      ∧ ∀ i ∈ items, isStopChunk i = false ∧ i ≠ SSEItem.doneSentinel)
  ∧ completionsGenerateStream model (.response 200 body (pre ++ Line.event e :: r1) e1)
      = completionsGenerateStream model (.response 200 body (pre ++ Line.event e :: r2) e2) := by
  have hchat : ∀ (r : List Line) (en : StreamEnd),
      chatGenerateStream model (.response 200 body (pre ++ Line.event e :: r) en)
        = chatStreamFrom model (pre ++ Line.event e :: r) en := by
    intro r en
    simp [chatGenerateStream]
  refine ⟨?_, ?_, ?_, ?_⟩
  · obtain ⟨items, h1, h2⟩ := chatStreamFrom_decomp model (pre ++ Line.event e :: r1) e1
    rw [chatLinesTerm_at_done model pre e hdone hpre r1 e1] at h1
    refine ⟨items, ?_, fun i hi =>
      ⟨(isContentChunk_props (h2 i hi)).2.1, (isContentChunk_props (h2 i hi)).2.2.2⟩⟩
    rw [hchat]
    exact h1
  · rw [hchat, hchat]
    exact chatStreamFrom_stops_at_done model pre e hdone hpre r1 r2 e1 e2
  · obtain ⟨items, h1, h2⟩ := completionsStreamFrom_decomp model (pre ++ Line.event e :: r1) e1
    rw [completionsLinesTerm_at_done pre e hdone hpre r1] at h1
    exact ⟨items, h1, fun i hi =>
      ⟨(isContentChunk_props (h2 i hi)).2.1, (isContentChunk_props (h2 i hi)).2.2.2⟩⟩
  · exact completionsStreamFrom_stops_at_done model pre e hdone hpre r1 r2 e1 e2

/-- C1 witness: the amended protocol theorem applied to a concrete
stream with a blank line, a done event, an unread suffix and differing
endings. -/
theorem stream_done_terminates_protocol_witness :
    ((∀ l ∈ [Line.blank], goodLine l = true)
      ∧ UpstreamEvent.done { done := true } = true)
  ∧ ((∃ items, chatGenerateStream "m"
        (.response 200 "" ([Line.blank] ++ Line.event { done := true } :: []) .eof)
        = items ++ [SSEItem.chunk "m" "" (some "stop"), SSEItem.doneSentinel]
      ∧ ∀ i ∈ items, isStopChunk i = false ∧ i ≠ SSEItem.doneSentinel)
  ∧ chatGenerateStream "m"
        (.response 200 "" ([Line.blank] ++ Line.event { done := true } :: []) .eof)
      = chatGenerateStream "m"
        (.response 200 "" ([Line.blank] ++ Line.event { done := true }
          :: [Line.nonObject "boom"]) (.fault "f"))
  ∧ (∃ items, completionsGenerateStream "m"
        (.response 200 "" ([Line.blank] ++ Line.event { done := true } :: []) .eof)
        = items ++ [SSEItem.doneSentinel]
      ∧ ∀ i ∈ items, isStopChunk i = false ∧ i ≠ SSEItem.doneSentinel)
  ∧ completionsGenerateStream "m"
        (.response 200 "" ([Line.blank] ++ Line.event { done := true } :: []) .eof)
      = completionsGenerateStream "m"
        (.response 200 "" ([Line.blank] ++ Line.event { done := true }
          :: [Line.nonObject "boom"]) (.fault "f"))) :=
  ⟨⟨by decide, rfl⟩,
   stream_done_terminates_protocol "m" "" [Line.blank] [] [Line.nonObject "boom"]
     { done := true } .eof (.fault "f") (by decide) rfl⟩

/-- C2 counterexample: an upstream stream that ends without a done event
produces zero terminal signals on both streaming paths, so the output
does not contain exactly one terminal signal. -/
theorem stream_without_done_no_terminal :
    chatGenerateStream "m"
        (.response 200 "" [Line.event { response := some "hi" }] .eof)
      = [SSEItem.chunk "m" "hi" none]
  ∧ (chatGenerateStream "m"
        (.response 200 "" [Line.event { response := some "hi" }] .eof)).countP
      isTerminalSignal = 0
  ∧ completionsGenerateStream "m"
        (.response 200 "" [Line.event { response := some "hi" }] .eof)
      = [SSEItem.chunk "m" "hi" none]
  ∧ (completionsGenerateStream "m"
        (.response 200 "" [Line.event { response := some "hi" }] .eof)).countP
      isTerminalSignal = 0 := by
  exact ⟨rfl, rfl, rfl, rfl⟩

/-- C2 (amended): every streaming output decomposes into content chunks
followed by the terminal emission determined by the upstream outcome:
for the chat path an error chunk on connect fault, error status,
non-object line or read fault, the stop chunk plus DONE sentinel on a
done event, and nothing when the stream ends without a done event; for
the completions path the DONE sentinel on a done event and nothing in
every other case. No terminal signal occurs among the content chunks. -/
theorem stream_terminal_decomposition (model : String) (u : UpstreamOutcome) :
    (∃ items, chatGenerateStream model u = items ++ chatTerminator model u
      ∧ ∀ i ∈ items, isTerminalSignal i = false)
  ∧ (∃ items, completionsGenerateStream model u = items ++ completionsTerminator u
      ∧ ∀ i ∈ items, isTerminalSignal i = false) := by
  constructor
  · obtain ⟨items, h1, h2⟩ := chatGenerateStream_decomp model u
    exact ⟨items, h1, fun i hi => (isContentChunk_props (h2 i hi)).1⟩
  · obtain ⟨items, h1, h2⟩ := completionsGenerateStream_decomp model u
    exact ⟨items, h1, fun i hi => (isContentChunk_props (h2 i hi)).1⟩

/-- C5 counterexample: a line holding a valid JSON non-object value is
not discarded silently: on the chat path it aborts the stream with an
error chunk instead of the stop chunk and DONE sentinel that the
well-formed event subsequence alone produces, and on the completions
path it silently truncates the stream. -/
theorem non_object_line_aborts_stream :
    chatGenerateStream "m"
        (.response 200 "" [Line.nonObject "no attribute get",
          Line.event { done := true }] .eof)
      = [SSEItem.chunk "m" "Error: no attribute get" (some "error")]
  ∧ chatGenerateStream "m" (.response 200 "" [Line.event { done := true }] .eof)
      = [SSEItem.chunk "m" "" (some "stop"), SSEItem.doneSentinel]
  ∧ completionsGenerateStream "m"
        (.response 200 "" [Line.nonObject "no attribute get",
          Line.event { done := true }] .eof)
      = []
  ∧ completionsGenerateStream "m" (.response 200 "" [Line.event { done := true }] .eof)
      = [SSEItem.doneSentinel] := by
  exact ⟨rfl, rfl, rfl, rfl⟩

/-- C5 (amended): blank lines and lines that fail JSON decoding are
discarded with no chunk emitted and never abort the stream: on both
streaming paths the output equals the output on the subsequence of
well-formed event lines alone, and with such lines no error chunk is
ever emitted. -/
theorem malformed_lines_skipped (model body : String) (lines : List Line) (ending : StreamEnd)
    (h : ∀ l ∈ lines, goodLine l = true) :
    chatGenerateStream model (.response 200 body lines ending)
        = chatGenerateStream model (.response 200 body (lines.filter isEventLine) ending)
  ∧ completionsGenerateStream model (.response 200 body lines ending)
        = completionsGenerateStream model
            (.response 200 body (lines.filter isEventLine) ending)
  ∧ (∀ i ∈ chatGenerateStream model (.response 200 body lines StreamEnd.eof),
      isErrorChunk i = false)
  ∧ (∀ i ∈ completionsGenerateStream model (.response 200 body lines ending),
      isErrorChunk i = false) := by
  have hch : ∀ (ls : List Line) (en : StreamEnd),
      chatGenerateStream model (.response 200 body ls en) = chatStreamFrom model ls en := by
    intro ls en
    simp [chatGenerateStream]
  refine ⟨?_, ?_, ?_, ?_⟩
  · rw [hch, hch]
    exact (chatStreamFrom_filter_events model lines ending h).symm
  · exact (completionsStreamFrom_filter_events model lines ending h).symm
  · rw [hch]
    obtain ⟨items, h1, h2⟩ := chatStreamFrom_decomp model lines StreamEnd.eof
    rw [h1]
    intro i hi
    rcases List.mem_append.mp hi with hh | hh
    · exact (isContentChunk_props (h2 i hh)).2.2.1
    · exact chatLinesTerm_good_eof_no_error model lines h i hh
  · obtain ⟨items, h1, h2⟩ := completionsStreamFrom_decomp model lines ending
    show ∀ i ∈ completionsStreamFrom model lines ending, isErrorChunk i = false
    rw [h1]
    intro i hi
    rcases List.mem_append.mp hi with hh | hh
    · exact (isContentChunk_props (h2 i hh)).2.2.1
    · exact completionsLinesTerm_no_error lines i hh

/-- C5 witness: the amended skipping theorem applied to a concrete
stream holding a decode-failing line, an event line and a blank line. -/
theorem malformed_lines_skipped_witness :
    (∀ l ∈ [Line.invalid "oops", Line.event { response := some "a" }, Line.blank],
      goodLine l = true)
  ∧ (chatGenerateStream "m" (.response 200 ""
        [Line.invalid "oops", Line.event { response := some "a" }, Line.blank] .eof)
      = chatGenerateStream "m" (.response 200 ""
          ([Line.invalid "oops", Line.event { response := some "a" },
            Line.blank].filter isEventLine) .eof)
  ∧ completionsGenerateStream "m" (.response 200 ""
        [Line.invalid "oops", Line.event { response := some "a" }, Line.blank] .eof)
      = completionsGenerateStream "m" (.response 200 ""
          ([Line.invalid "oops", Line.event { response := some "a" },
            Line.blank].filter isEventLine) .eof)
  ∧ (∀ i ∈ chatGenerateStream "m" (.response 200 ""
        [Line.invalid "oops", Line.event { response := some "a" }, Line.blank]
        StreamEnd.eof), isErrorChunk i = false)
  ∧ (∀ i ∈ completionsGenerateStream "m" (.response 200 ""
        [Line.invalid "oops", Line.event { response := some "a" }, Line.blank] .eof),
      isErrorChunk i = false)) :=
  ⟨by decide,
   malformed_lines_skipped "m" ""
     [Line.invalid "oops", Line.event { response := some "a" }, Line.blank] .eof (by decide)⟩

/-- C6 counterexample: a read fault on the plain completions streaming
path produces no error chunk at all; the stream just ends after the
content streamed so far. -/
theorem completions_fault_no_error_chunk :
    completionsGenerateStream "m"
        (.response 200 "" [Line.event { response := some "hi" }] (.fault "ReadTimeout"))
      = [SSEItem.chunk "m" "hi" none]
  ∧ (completionsGenerateStream "m"
        (.response 200 "" [Line.event { response := some "hi" }]
          (.fault "ReadTimeout"))).countP isErrorChunk = 0 := by
  exact ⟨rfl, rfl⟩

/-- C6 (amended): a fault while reading the upstream stream makes the
chat streaming path emit exactly one SSE chunk with finish reason error
carrying the fault message in its delta text, after the content chunks
already streamed; the plain completions streaming path never emits an
error chunk for any upstream outcome. -/
theorem stream_fault_error_chunk (model body msg : String) (lines : List Line)
    (hgood : ∀ l ∈ lines, goodLine l = true)
    (hnodone : ∀ f, Line.event f ∈ lines → f.done = false) :
    (∃ items, chatGenerateStream model (.response 200 body lines (.fault msg))
        = items ++ [SSEItem.chunk model ("Error: " ++ msg) (some "error")]
      ∧ ∀ i ∈ items, isErrorChunk i = false)
  ∧ (∀ u : UpstreamOutcome, ∀ i ∈ completionsGenerateStream model u,
      isErrorChunk i = false) := by
  constructor
  · obtain ⟨items, h1, h2⟩ := chatStreamFrom_decomp model lines (.fault msg)
    rw [chatLinesTerm_nodone_fault model msg lines hgood hnodone] at h1
    refine ⟨items, ?_, fun i hi => (isContentChunk_props (h2 i hi)).2.2.1⟩
    have hch : chatGenerateStream model (.response 200 body lines (.fault msg))
        = chatStreamFrom model lines (.fault msg) := by
      simp [chatGenerateStream]
    rw [hch, h1]
  · intro u
    obtain ⟨items, h1, h2⟩ := completionsGenerateStream_decomp model u
    rw [h1]
    intro i hi
    rcases List.mem_append.mp hi with hh | hh
    · exact (isContentChunk_props (h2 i hh)).2.2.1
    · cases u with
      | connectFault m2 => simp [completionsTerminator] at hh
      | response st b ls en =>
        exact completionsLinesTerm_no_error ls i (by simpa [completionsTerminator] using hh)

/-- C6 witness: the amended fault theorem applied to a concrete stream
holding one content event and a read timeout. -/
theorem stream_fault_error_chunk_witness :
    ((∀ l ∈ [Line.event { response := some "par" }], goodLine l = true)
      ∧ (∀ f, Line.event f ∈ [Line.event { response := some "par" }] → f.done = false))
  ∧ ((∃ items, chatGenerateStream "m"
        (.response 200 "" [Line.event { response := some "par" }] (.fault "ReadTimeout"))
        = items ++ [SSEItem.chunk "m" ("Error: " ++ "ReadTimeout") (some "error")]
      ∧ ∀ i ∈ items, isErrorChunk i = false)
  ∧ (∀ u : UpstreamOutcome, ∀ i ∈ completionsGenerateStream "m" u,
      isErrorChunk i = false)) :=
  ⟨⟨by decide, by
      intro f hf
      simp only [List.mem_singleton, Line.event.injEq] at hf
      subst hf
      rfl⟩,
   stream_fault_error_chunk "m" "" "ReadTimeout" [Line.event { response := some "par" }]
     (by decide) (by
       intro f hf
       simp only [List.mem_singleton, Line.event.injEq] at hf
       subst hf
       rfl)⟩

/-! Claims about the non-streaming handlers and the request translators. -/

/-- C3: evaluation at the failing input: when the upstream replies with
status 404, the inner HTTPException carrying that status is caught by
the blanket except clause of the non-streaming chat and completions
handlers and re-raised as HTTP 500 with the stringified exception as
detail, so the client sees 500, not the upstream status. -/
theorem upstream_status_swallowed_to_500 :
    chat_nonstream_inner { model := "m", messages := [] } (.response 404 {})
      = .error (.httpExc { status := 404, detail := "Failed to generate response" })
  ∧ chat_completions_nonstream { model := "m", messages := [] } (.response 404 {})
      = .error { status := 500, detail := "404: Failed to generate response" }
  ∧ completions_nonstream { model := "m", prompt := "p" } (.response 404 {})
      = .error { status := 500, detail := "404: Failed to generate response" } := by
  exact ⟨rfl, rfl, rfl⟩

/-- C4 counterexample: on a connection fault the non-streaming chat
endpoint returns HTTP 500 carrying the fault message, not HTTP 503. -/
theorem connect_fault_nonstream_returns_500 :
    chat_completions_nonstream { model := "m", messages := [] }
        (.connectFault "Connection refused")
      = .error { status := 500, detail := "Connection refused" }
  ∧ (500 : Nat) ≠ 503 := by
  exact ⟨rfl, by decide⟩

/-- C4 (amended): on a connection fault before any response the models
endpoint returns 503 with a descriptive detail, the non-streaming chat
and completions endpoints return 500 carrying the fault message, the
chat streaming path emits exactly one in-band error chunk and no DONE
sentinel, and the completions streaming path emits nothing. -/
theorem connect_fault_surfacing (msg model : String) (req : ChatCompletionRequest)
    (creq : CompletionRequest) :
    list_models (.connectFault msg)
        = .error { status := 503, detail := "Ollama service unavailable: " ++ msg }
  ∧ chat_completions_nonstream req (.connectFault msg)
        = .error { status := 500, detail := msg }
  ∧ completions_nonstream creq (.connectFault msg)
        = .error { status := 500, detail := msg }
  ∧ chatGenerateStream model (.connectFault msg)
        = [SSEItem.chunk model ("Error: " ++ msg) (some "error")]
  ∧ (chatGenerateStream model (.connectFault msg)).countP isErrorChunk = 1
  ∧ SSEItem.doneSentinel ∉ chatGenerateStream model (.connectFault msg)
  ∧ completionsGenerateStream model (.connectFault msg) = [] := by
  refine ⟨rfl, rfl, rfl, rfl, rfl, ?_, rfl⟩
  simp [chatGenerateStream]

/-- C8: the chat request translation copies max_tokens into
options.num_predict and temperature and top_p verbatim, and places no
frequency_penalty or presence_penalty key anywhere in the payload; the
completion request translation carries the prompt verbatim and its
options hold exactly the keys temperature and num_predict, with no
top_p key anywhere. -/
theorem request_translator_fields (r : ChatCompletionRequest) (c : CompletionRequest) :
    (∃ opts, jlookup (chat_ollama_payload r) "options" = some (.obj opts)
      ∧ jlookup opts "num_predict" = some (.num (r.max_tokens : ℚ))
      ∧ jlookup opts "temperature" = some (.num r.temperature)
      ∧ jlookup opts "top_p" = some (.num r.top_p))
  ∧ jfieldsHaveKey "frequency_penalty" (chat_ollama_payload r) = false
  ∧ jfieldsHaveKey "presence_penalty" (chat_ollama_payload r) = false
  ∧ jlookup (completions_ollama_payload c) "prompt" = some (.str c.prompt)
  ∧ (∃ opts, jlookup (completions_ollama_payload c) "options" = some (.obj opts)
      ∧ opts.map Prod.fst = ["temperature", "num_predict"]
      ∧ jlookup opts "temperature" = some (.num c.temperature)
      ∧ jlookup opts "num_predict" = some (.num (c.max_tokens : ℚ)))
  ∧ jfieldsHaveKey "top_p" (completions_ollama_payload c) = false := by
  exact ⟨⟨_, rfl, rfl, rfl, rfl⟩, rfl, rfl, rfl, ⟨_, rfl, rfl, rfl, rfl⟩, rfl⟩

/-- C9: usage accounting on both non-streaming endpoints: prompt tokens
default a missing prompt_eval_count to zero, completion tokens default a
missing eval_count to zero, total tokens equal their sum, both
endpoints compute the same usage, and the assembled success responses
carry exactly these usage objects. -/
theorem usage_accounting (r : OllamaResponse) (req : ChatCompletionRequest)
    (creq : CompletionRequest) :
    (chat_usage r).prompt_tokens = r.prompt_eval_count.getD 0
  ∧ (chat_usage r).completion_tokens = r.eval_count.getD 0
  ∧ (chat_usage r).total_tokens
      = (chat_usage r).prompt_tokens + (chat_usage r).completion_tokens
  ∧ completions_usage r = chat_usage r
  ∧ chat_completions_nonstream req (.response 200 r)
      = .ok { model := req.model, content := r.response.getD ""
              finish_reason := "stop", usage := chat_usage r }
  ∧ completions_nonstream creq (.response 200 r)
      = .ok { model := creq.model, text := r.response.getD ""
              finish_reason := "stop", usage := completions_usage r } := by
  exact ⟨rfl, rfl, rfl, rfl, rfl, rfl⟩

/-- C10 counterexample: the penalty fields are defaulted on the chat
request, yet the translated payload does not carry a
frequency_penalty or presence_penalty key anywhere, refuting the claim
that all the defaulted values are carried by the upstream payload. -/
theorem default_penalties_not_in_payload :
    ChatCompletionRequest.frequency_penalty { model := "m", messages := [] } = 0
  ∧ ChatCompletionRequest.presence_penalty { model := "m", messages := [] } = 0
  ∧ jfieldsHaveKey "frequency_penalty"
      (chat_ollama_payload { model := "m", messages := [] }) = false
  ∧ jfieldsHaveKey "presence_penalty"
      (chat_ollama_payload { model := "m", messages := [] }) = false := by
  exact ⟨rfl, rfl, rfl, rfl⟩

/-- C10 (amended): omitted optional fields default to stream false,
temperature 0.7 and max_tokens 1000 for both request kinds, plus top_p
1.0, frequency_penalty 0.0 and presence_penalty 0.0 for a chat request;
the defaulted stream, temperature, max_tokens and top_p are what the
translated payload carries, while the defaulted penalties are accepted
but never placed in the payload. -/
theorem request_defaults (m p : String) (msgs : List Message) :
    (({ model := m, messages := msgs } : ChatCompletionRequest).stream = false
      ∧ ({ model := m, messages := msgs } : ChatCompletionRequest).temperature = 7/10
      ∧ ({ model := m, messages := msgs } : ChatCompletionRequest).max_tokens = 1000
      ∧ ({ model := m, messages := msgs } : ChatCompletionRequest).top_p = 1
      ∧ ({ model := m, messages := msgs } : ChatCompletionRequest).frequency_penalty = 0
      ∧ ({ model := m, messages := msgs } : ChatCompletionRequest).presence_penalty = 0)
  ∧ (({ model := m, prompt := p } : CompletionRequest).stream = false
      ∧ ({ model := m, prompt := p } : CompletionRequest).temperature = 7/10
      ∧ ({ model := m, prompt := p } : CompletionRequest).max_tokens = 1000)
  ∧ jlookup (chat_ollama_payload { model := m, messages := msgs }) "stream"
      = some (.bool false)
  ∧ (∃ opts, jlookup (chat_ollama_payload { model := m, messages := msgs }) "options"
        = some (.obj opts)
      ∧ jlookup opts "temperature" = some (.num (7/10))
      ∧ jlookup opts "num_predict" = some (.num ((1000 : Int) : ℚ))
      ∧ jlookup opts "top_p" = some (.num 1))
  ∧ ((1000 : Int) : ℚ) = 1000
  ∧ jlookup (completions_ollama_payload { model := m, prompt := p }) "stream"
      = some (.bool false)
  ∧ (∃ opts, jlookup (completions_ollama_payload { model := m, prompt := p }) "options"
        = some (.obj opts)
      ∧ jlookup opts "temperature" = some (.num (7/10))
      ∧ jlookup opts "num_predict" = some (.num ((1000 : Int) : ℚ))) := by
  refine ⟨⟨rfl, rfl, rfl, rfl, rfl, rfl⟩, ⟨rfl, rfl, rfl⟩, rfl,
    ⟨_, rfl, rfl, rfl, rfl⟩, by norm_num, rfl, ⟨_, rfl, rfl, rfl⟩⟩

end OllamaProxy
